import Mathlib

/-!
# Verification of the Athena pipeline core

A shallow embedding of the core data-processing functions of the Athena
repository (a YouTube / Spotify / Deezer music-analysis pipeline), together
with proofs about them.

Modelling conventions:
* Python scalar values are modelled by `PyVal` (ints, floats, strings, `None`).
  Python floats are modelled exactly as rationals (`ℚ`); IEEE-754 rounding of
  individual arithmetic operations is abstracted away.
* Python dicts are association lists; lookup returns the first matching key,
  and `{**a, **b}` / item assignment keep the original key position.
* Fallible Python code (uncaught `ValueError` / `TypeError` / `KeyError`)
  is modelled with `Except PyErr`.
-/

namespace Athena

/-- A Python scalar value as it occurs in the pipeline's records. -/
inductive PyVal where
  | vInt (n : Int)
  | vFloat (q : ℚ)
  | vStr (s : String)
  | vNone
deriving DecidableEq

/-- The Python exception kinds relevant to the embedded code. -/
inductive PyErr where
  | valueError
  | typeError
  | keyError
deriving DecidableEq

/-- A Python dict with string keys, as an association list. -/
abbrev Dict := List (String × PyVal)

/-- First-match association-list lookup (Python `d.get(k)` / `d[k]` value). -/
def alookup {κ α : Type} [DecidableEq κ] : List (κ × α) → κ → Option α
  | [], _ => none
  | (k, v) :: rest, key => if k = key then some v else alookup rest key

/-- Update the value at a key in place, or append it (Python `d[k] = v`). -/
def aset {κ α : Type} [DecidableEq κ] : List (κ × α) → κ → α → List (κ × α)
  | [], key, value => [(key, value)]
  | (k, v) :: rest, key, value =>
    if k = key then (key, value) :: rest else (k, v) :: aset rest key value

/-- Python `d.get(k)` on a dict. -/
def dget (d : Dict) (key : String) : Option PyVal := alookup d key

/-- Python `d.get(k, default)` on a dict. -/
def dgetD (d : Dict) (key : String) (dflt : PyVal) : PyVal := (dget d key).getD dflt

/-- Python `{**a, **b}`: the keys of `a` in order with values overridden by
`b` where present, then the keys of `b` not occurring in `a`, in order. -/
def dictMerge (a b : Dict) : Dict :=
  (a.map (fun kv => match dget b kv.1 with | some v => (kv.1, v) | none => kv))
    ++ b.filter (fun kv => (dget a kv.1).isNone)

/-- The first of two optional values, the second as fallback (`x or y`). -/
def oFirst {α : Type} (x y : Option α) : Option α :=
  match x with
  | some v => some v
  | none => y

/-! ## Python `int()` and `float()` on the pipeline's scalar types -/

/-- Parse a nonempty run of ASCII digits, accumulator style. -/
def parseDigitsAux : List Char → Nat → Option Nat
  | [], acc => some acc
  | c :: cs, acc =>
    if c.isDigit then parseDigitsAux cs (acc * 10 + (c.toNat - 48)) else none

/-- Parse a nonempty string of ASCII digits. -/
def parseDigits (cs : List Char) : Option Nat :=
  if cs.isEmpty then none else parseDigitsAux cs 0

/-- Strip one optional leading sign character; `true` means negative. -/
def stripSign : List Char → Bool × List Char
  | '-' :: cs => (true, cs)
  | '+' :: cs => (false, cs)
  | cs => (false, cs)

/-- Strip leading and trailing whitespace (the `str.strip()` step that
Python `int()` and `float()` perform on string input). -/
def stripWs (cs : List Char) : List Char :=
  ((cs.dropWhile Char.isWhitespace).reverse.dropWhile Char.isWhitespace).reverse

/-- Python `int(s)` on a string: surrounding whitespace, an optional sign and
a nonempty digit run (other builtin forms, e.g. underscores, do not occur in
the pipeline's data and are rejected, which errs on the `ValueError` side). -/
def pyParseInt (s : String) : Option Int :=
  let (neg, ds) := stripSign (stripWs s.toList)
  match parseDigits ds with
  | some n => some (if neg then -(n : Int) else (n : Int))
  | none => none

/-- Truncation toward zero, the behaviour of Python `int()` on a float. -/
def ratTrunc (q : ℚ) : Int := if 0 ≤ q then ⌊q⌋ else ⌈q⌉

/-- Python `int(x)`: ints pass through, floats truncate, strings parse
(`ValueError` on failure), `None` raises `TypeError`. -/
def pyInt : PyVal → Except PyErr Int
  | .vInt n => .ok n
  | .vFloat q => .ok (ratTrunc q)
  | .vStr s =>
    match pyParseInt s with
    | some n => .ok n
    | none => .error .valueError
  | .vNone => .error .typeError

/-- Leading digit run of a character list, with the remainder. -/
def takeDigits : List Char → List Char × List Char
  | [] => ([], [])
  | c :: cs =>
    if c.isDigit then
      let (d, r) := takeDigits cs
      (c :: d, r)
    else ([], c :: cs)

/-- Numeric value of a digit list. -/
def digitsVal (cs : List Char) : Nat :=
  cs.foldl (fun acc c => acc * 10 + (c.toNat - 48)) 0

/-- Parse an unsigned decimal literal `digits [. digits]` with at least one
digit overall. -/
def parseDecimal (cs : List Char) : Option ℚ :=
  let (ip, rest) := takeDigits cs
  match rest with
  | [] => if ip.isEmpty then none else some ((digitsVal ip : ℚ))
  | '.' :: rest2 =>
    let (fp, rest3) := takeDigits rest2
    if rest3.isEmpty ∧ ¬(ip.isEmpty ∧ fp.isEmpty) then
      some ((digitsVal ip : ℚ) + (digitsVal fp : ℚ) / ((10 : ℚ) ^ fp.length))
    else none
  | _ => none

/-- Python `float(s)` on a string: whitespace, optional sign, plain decimal
(exponent forms do not occur in the pipeline's data and are rejected). -/
def pyParseFloat (s : String) : Option ℚ :=
  let (neg, ds) := stripSign (stripWs s.toList)
  (parseDecimal ds).map (fun q => if neg then -q else q)

/-- Python `float(x)`. -/
def pyFloat : PyVal → Except PyErr ℚ
  | .vInt n => .ok (n : ℚ)
  | .vFloat q => .ok q
  | .vStr s =>
    match pyParseFloat s with
    | some q => .ok q
    | none => .error .valueError
  | .vNone => .error .typeError

/-- Python truthiness of a scalar (`bool(x)` for the types in `PyVal`). -/
def pyTruthy : PyVal → Bool
  | .vInt n => n != 0
  | .vFloat q => q != 0
  | .vStr s => s != ""
  | .vNone => false

/-! ## `multiplatform_analysis.py` -/

/-- `calculate_popularity_score` from `multiplatform_analysis.py`:
`int()` both inputs inside a `try` that catches only `ValueError`;
both zero gives `1.0`, one zero gives `0.0`, otherwise `min/max`. -/
def calculate_popularity_score (youtube_views streaming_count : PyVal) :
    Except PyErr ℚ :=
  match pyInt youtube_views with
  | .error .valueError => .ok 0
  | .error e => .error e
  | .ok views =>
    match pyInt streaming_count with
    | .error .valueError => .ok 0
    | .error e => .error e
    | .ok streams =>
      if views = 0 ∧ streams = 0 then .ok 1
      else if views = 0 ∨ streams = 0 then .ok 0
      else .ok (((min views streams : Int) : ℚ) / ((max views streams : Int) : ℚ))

/-- `get_best_streaming_count` from `multiplatform_analysis.py`:
scale Spotify popularity by 1,000,000, use the Deezer rank as-is, and pick
the branch by positivity of the two counts. -/
def get_best_streaming_count (spotify_data deezer_data : Dict) :
    Except PyErr (Int × String) :=
  match pyInt (dgetD spotify_data "popularity" (.vInt 0)) with
  | .error e => .error e
  | .ok p =>
    let spotify_count := p * 1000000
    match pyInt (dgetD deezer_data "rank" (.vInt 0)) with
    | .error e => .error e
    | .ok deezer_count =>
      if spotify_count > 0 ∧ deezer_count > 0 then
        .ok (max spotify_count deezer_count, "Combined")
      else if spotify_count > 0 then .ok (spotify_count, "Spotify")
      else if deezer_count > 0 then .ok (deezer_count, "Deezer")
      else .ok (0, "None")

/-- The flag line of `process_single_video_popularity`:
`final_score_flag = 1 if normalized_score >= 0.5 else 0`. -/
def derive_flag (normalized_score : ℚ) : Int :=
  if normalized_score ≥ 1/2 then 1 else 0

/-- Round half to even, the tie-breaking rule of Python `round()`. -/
def roundHalfEven (q : ℚ) : Int :=
  let f := ⌊q⌋
  let r := q - (f : ℚ)
  if r < 1/2 then f
  else if 1/2 < r then f + 1
  else if Even f then f else f + 1

/-- Python `round(q, 4)`. -/
def pyRound4 (q : ℚ) : ℚ := ((roundHalfEven (q * 10000) : Int) : ℚ) / 10000

/-- One entry of the Spotify matcher's result list
(`{"youtube_video_id": ..., "spotify_data": {...}}`, see `spotify.py`). -/
structure SpotifyItem where
  youtube_video_id : String
  spotify_data : Dict
deriving DecidableEq

/-- One entry of the Deezer matcher's result list
(`{"youtube_video_id": ..., "deezer_data": {...}}`, see `deezer.py`). -/
structure DeezerItem where
  youtube_video_id : String
  deezer_data : Dict
deriving DecidableEq

/-- `process_single_video_popularity` from `multiplatform_analysis.py`. -/
def process_single_video_popularity (video : Dict)
    (spotify_results : List SpotifyItem) (deezer_results : List DeezerItem) :
    Except PyErr Dict :=
  match dget video "video_id" with
  | none => .error .keyError
  | some video_id =>
    let youtube_views := dgetD video "views" (.vStr "0")
    let spotify_match :=
      spotify_results.find? (fun item => PyVal.vStr item.youtube_video_id == video_id)
    let deezer_match :=
      deezer_results.find? (fun item => PyVal.vStr item.youtube_video_id == video_id)
    let spotify_data := match spotify_match with
      | some item => item.spotify_data
      | none => []
    let deezer_data := match deezer_match with
      | some item => item.deezer_data
      | none => []
    match get_best_streaming_count spotify_data deezer_data with
    | .error e => .error e
    | .ok (best_streams, platform_used) =>
      match calculate_popularity_score youtube_views (.vInt best_streams) with
      | .error e => .error e
      | .ok normalized_score =>
        .ok [("video_id", video_id),
             ("youtube_views", youtube_views),
             ("streaming_count_used", .vInt best_streams),
             ("streaming_platform_used", .vStr platform_used),
             ("normalized_score", .vFloat (pyRound4 normalized_score)),
             ("popularity_flag", .vInt (derive_flag normalized_score))]

/-! ## `app.py`: the Merge Engine -/

/-- A lookup table keyed by `video_id` values (a Python dict whose keys are
the `video_id` values, which may be any scalar). -/
abbrev Index := List (PyVal × Dict)

/-- The dict comprehension `{item['video_id']: item for item in items}`,
accumulator style: later items overwrite earlier ones at the same key, and a
missing `"video_id"` key raises `KeyError`. -/
def buildIndexFrom (acc : Index) : List Dict → Except PyErr Index
  | [] => .ok acc
  | item :: rest =>
    match dget item "video_id" with
    | some k => buildIndexFrom (aset acc k item) rest
    | none => .error .keyError

/-- Build the `video_id`-keyed lookup dict for one secondary source. -/
def buildIndex (items : List Dict) : Except PyErr Index := buildIndexFrom [] items

/-- The per-video loop of `merge_data`: for each collector record look up the
two overlays (empty dict when absent) and overlay them onto the record. -/
def mergeEntries (gemini_dict multi_dict : Index) : List Dict → Except PyErr (List Dict)
  | [] => .ok []
  | video :: rest =>
    match dget video "video_id" with
    | none => .error .keyError
    | some vid_id =>
      let g_data := (alookup gemini_dict vid_id).getD []
      let m_data := (alookup multi_dict vid_id).getD []
      let merged_entry := dictMerge (dictMerge video g_data) m_data
      match mergeEntries gemini_dict multi_dict rest with
      | .error e => .error e
      | .ok tail => .ok (merged_entry :: tail)

/-- `merge_data` from `app.py`: index the Gemini and multiplatform outputs by
`video_id`, then walk the scraper output overlaying dict fields in the order
scraper, Gemini, multiplatform. -/
def merge_data (raw_data gemini_data multi_data : List Dict) :
    Except PyErr (List Dict) :=
  match buildIndex gemini_data with
  | .error e => .error e
  | .ok gemini_dict =>
    match buildIndex multi_data with
    | .error e => .error e
    | .ok multi_dict => mergeEntries gemini_dict multi_dict raw_data

/-! ## `gemini.py`: the classifier wrapper -/

/-- The observable outcome of the Gemini call and `json.loads` inside
`analyze_single_video`: the whole body sits in a `try` whose bare `except`
also absorbs malformed payloads, so the relevant shapes are failure, a JSON
array of objects, or a JSON object. -/
inductive GeminiResponse where
  | fail
  | listResp (items : List Dict)
  | dictResp (d : Dict)
deriving DecidableEq

/-- The fallback record of `analyze_single_video` (used both for an empty
list response and for the `except` path). -/
def errRecord (video_id : String) : Dict :=
  [("video_id", .vStr video_id),
   ("sentiment_flag", .vInt 0),
   ("emotional_genre", .vStr "Error"),
   ("sega_genre", .vStr "Not Sega"),
   ("gemini_confidence_score", .vFloat 0),
   ("comment_density_rating", .vStr "Low")]

/-- `analyze_single_video` from `gemini.py`, after the network call: a list
response returns its first element as-is (or the fallback when empty); a dict
response has a `sega_genre` equal to `"Unknown"` or falsy coerced to
`"Roots Sega"`; every error lands on the fallback record. -/
def analyze_single_video (video_id : String) (resp : GeminiResponse) : Dict :=
  match resp with
  | .fail => errRecord video_id
  | .listResp items =>
    match items with
    | d :: _ => d
    | [] => errRecord video_id
  | .dictResp data =>
    if dgetD data "sega_genre" .vNone = .vStr "Unknown"
        ∨ pyTruthy (dgetD data "sega_genre" .vNone) = false then
      aset data "sega_genre" (.vStr "Roots Sega")
    else data

/-! ## `database.py`: the persistence sink -/

/-- The body of the per-item `try` in `insert_analysis_results`: build the
SQL-named record, coercing the two float fields and the view count (a failure
in any of the three raises and is caught by the surrounding `except`). -/
def buildRecord (item : Dict) : Except PyErr Dict :=
  match pyFloat (dgetD item "gemini_confidence_score" (.vFloat 0)) with
  | .error e => .error e
  | .ok conf =>
    match pyFloat (dgetD item "normalized_score" (.vFloat 0)) with
    | .error e => .error e
    | .ok nscore =>
      match pyInt (dgetD item "youtube_views" (.vInt 0)) with
      | .error e => .error e
      | .ok yviews =>
        .ok [("video_id", dgetD item "video_id" .vNone),
             ("sentiment_flag", dgetD item "sentiment_flag" (.vInt 0)),
             ("multianalysis_flag", dgetD item "popularity_flag" (.vInt 0)),
             ("emotional_genre", dgetD item "emotional_genre" (.vStr "Unknown")),
             ("sega_genre", dgetD item "sega_genre" (.vStr "Not Sega")),
             ("gemini_confidence_score", .vFloat conf),
             ("comment_density_rating", dgetD item "comment_density_rating" (.vStr "Low")),
             ("normalized_score", .vFloat nscore),
             ("streaming_platform_used", dgetD item "streaming_platform_used" (.vStr "None")),
             ("youtube_views", .vInt yviews)]

/-- The record-preparation loop of `insert_analysis_results`: `records_to_insert`
is accumulated item by item; an item whose coercion raises is skipped (the
`except` prints and `continue`s) and the loop goes on. The resulting list is
what is submitted to the database in one batch. -/
def prepareRecords : List Dict → List Dict
  | [] => []
  | item :: rest =>
    match buildRecord item with
    | .ok record => record :: prepareRecords rest
    | .error _ => prepareRecords rest

/-! ## `scraper.py`: the Collector -/

/-- Per-video input of the Collector's processing loop: the id, title and
`statistics.get("viewCount", "0")` from the details response, plus the
outcome of the comment fetch for that video (`none` models the `except`
path of `get_comments`; `some texts` the fetched comment texts, with a
missing `items` key appearing as `some []`). -/
structure ScrapedItem where
  id : String
  title : String
  viewCount : Option String
  commentsResp : Option (List String)
deriving DecidableEq

/-- The comment cleaning line of `get_comments`:
`text.replace("\n", " ").replace("\r", "")`, character by character. -/
def cleanComment (s : String) : String :=
  String.mk ((s.toList.map (fun c => if c = '\n' then ' ' else c)).filter
    (fun c => c != '\r'))

/-- The pure core of `get_comments` from `scraper.py`: an exception yields
`""`; otherwise the cleaned comment texts joined by `" | "` (so no comments
also yield `""`). -/
def get_comments (resp : Option (List String)) : String :=
  match resp with
  | none => ""
  | some texts => String.intercalate " | " (texts.map cleanComment)

/-- The per-item loop of `run_scraper` for one channel: build a record only
when the joined comment string is truthy (nonempty); `int(view_count)` can
raise `ValueError` out of the loop. -/
def processChannelItems (channel_name channel_id : String) :
    List ScrapedItem → Except PyErr (List Dict)
  | [] => .ok []
  | it :: rest =>
    let view_count := it.viewCount.getD "0"
    let comments := get_comments it.commentsResp
    if comments ≠ "" then
      match pyInt (.vStr view_count) with
      | .error e => .error e
      | .ok yv =>
        match processChannelItems channel_name channel_id rest with
        | .error e => .error e
        | .ok tail =>
          .ok ([("video_id", .vStr it.id),
                ("title", .vStr it.title),
                ("video_url", .vStr ("https://www.youtube.com/watch?v=" ++ it.id)),
                ("channel_name", .vStr channel_name),
                ("channel_id", .vStr channel_id),
                ("channel_url", .vStr ("https://www.youtube.com/channel/" ++ channel_id)),
                ("views", .vStr view_count),
                ("youtube_views", .vInt yv),
                ("comments", .vStr comments)] :: tail)
    else processChannelItems channel_name channel_id rest

/-- One channel's worth of Collector input: channel metadata and the items of
its uploads playlist with their comment-fetch outcomes. -/
structure ChannelData where
  channel_id : String
  channel_name : String
  items : List ScrapedItem
deriving DecidableEq

/-- `run_scraper` from `scraper.py`, with the network iteration replaced by
its observable per-channel inputs: the per-item loops' outputs concatenated
over the configured channels. -/
def run_scraper : List ChannelData → Except PyErr (List Dict)
  | [] => .ok []
  | ch :: rest =>
    match processChannelItems ch.channel_name ch.channel_id ch.items with
    | .error e => .error e
    | .ok part =>
      match run_scraper rest with
      | .error e => .error e
      | .ok more => .ok (part ++ more)

/-- Whether a value is a Python `int` or `str` — the scalar types that the
pipeline actually routes into the popularity-score computation. -/
def intOrStr : PyVal → Bool
  | .vInt _ => true
  | .vStr _ => true
  | _ => false

/-! ## Concrete fixtures used to instantiate the theorems -/

/-- A two-video scraper output (ids `v1`, `v2`). -/
def sampleRaw : List Dict :=
  [[("video_id", .vStr "v1"), ("views", .vStr "1000")],
   [("video_id", .vStr "v2"), ("views", .vStr "0")]]

/-- A Gemini output covering only `v1`. -/
def sampleGemini : List Dict :=
  [[("video_id", .vStr "v1"), ("sentiment_flag", .vInt 1),
    ("sega_genre", .vStr "Roots Sega")]]

/-- A multiplatform output covering only `v2`. -/
def sampleMulti : List Dict :=
  [[("video_id", .vStr "v2"), ("normalized_score", .vFloat 1),
    ("popularity_flag", .vInt 1)]]

/-- The Gemini lookup dict built from `sampleGemini`. -/
def sampleGD : Index := (buildIndex sampleGemini).toOption.getD []

/-- The multiplatform lookup dict built from `sampleMulti`. -/
def sampleMD : Index := (buildIndex sampleMulti).toOption.getD []

/-- The merged output for the sample inputs. -/
def sampleMerged : List Dict :=
  (merge_data sampleRaw sampleGemini sampleMulti).toOption.getD []

/-- One-video scraper output with a field `x` that also occurs downstream. -/
def ovRaw : List Dict := [[("video_id", .vStr "a"), ("x", .vInt 1)]]

/-- Gemini output colliding with the scraper on `x` and with multi on `y`. -/
def ovG : List Dict := [[("video_id", .vStr "a"), ("x", .vInt 2), ("y", .vInt 2)]]

/-- Multiplatform output colliding with Gemini on `y`. -/
def ovM : List Dict := [[("video_id", .vStr "a"), ("y", .vInt 3)]]

/-- The Gemini lookup dict built from `ovG`. -/
def ovGD : Index := (buildIndex ovG).toOption.getD []

/-- The multiplatform lookup dict built from `ovM`. -/
def ovMD : Index := (buildIndex ovM).toOption.getD []

/-- The merged output for the collision fixtures. -/
def ovOut : List Dict := (merge_data ovRaw ovG ovM).toOption.getD []

/-- A collector record with a string view count, for the Normalizer. -/
def pfVideo : Dict := [("video_id", .vStr "w1"), ("views", .vStr "150")]

/-- A Spotify result list matching `pfVideo`. -/
def pfSpot : List SpotifyItem := [⟨"w1", [("popularity", .vInt 80)]⟩]

/-- The popularity record produced for `pfVideo`. -/
def pfOut : Dict :=
  (process_single_video_popularity pfVideo pfSpot []).toOption.getD []

/-- A merged record that coerces cleanly in the persistence sink. -/
def dbGood1 : Dict := [("video_id", .vStr "g1"), ("sentiment_flag", .vInt 1)]

/-- A merged record whose view count fails integer coercion. -/
def dbBad : Dict := [("video_id", .vStr "b"), ("youtube_views", .vStr "oops")]

/-- Another merged record that coerces cleanly. -/
def dbGood2 : Dict := [("video_id", .vStr "g2"), ("popularity_flag", .vInt 1)]

/-- A channel whose three videos have comments, a failed comment fetch, and
an empty comment list respectively. -/
def scChannel : ChannelData :=
  ⟨"UC1", "Chan",
   [⟨"vidA", "Song A", some "1200", some ["great", "love it"]⟩,
    ⟨"vidB", "Song B", some "10", none⟩,
    ⟨"vidC", "Song C", none, some []⟩]⟩

/-- The Collector output for `scChannel`. -/
def scOut : List Dict := (run_scraper [scChannel]).toOption.getD []

/-! ## General lemmas about the dict model -/

theorem alookup_append {κ α : Type} [DecidableEq κ] (d1 d2 : List (κ × α)) (key : κ) :
    alookup (d1 ++ d2) key = oFirst (alookup d1 key) (alookup d2 key) := by
  induction d1 with
  | nil => simp [alookup, oFirst]
  | cons kv rest ih =>
    obtain ⟨k, v⟩ := kv
    by_cases h : k = key
    · simp [alookup, h, oFirst]
    · simp [alookup, h, ih]

theorem alookup_aset {κ α : Type} [DecidableEq κ] (d : List (κ × α)) (k : κ) (v : α)
    (key : κ) :
    alookup (aset d k v) key = if k = key then some v else alookup d key := by
  induction d with
  | nil => simp [aset, alookup]
  | cons kv rest ih =>
    obtain ⟨k0, v0⟩ := kv
    by_cases h : k0 = k
    · subst h
      by_cases h2 : k0 = key <;> simp [aset, alookup, h2]
    · by_cases h2 : k0 = key
      · subst h2
        have hne : ¬k = k0 := fun hh => h hh.symm
        simp [aset, h, alookup, hne]
      · simp [aset, h, alookup, h2, ih]

theorem dget_mapOverride (a b : Dict) (key : String) :
    dget (a.map (fun kv => match dget b kv.1 with | some v => (kv.1, v) | none => kv)) key
      = match dget a key with
        | some v => (match dget b key with | some w => some w | none => some v)
        | none => none := by
  induction a with
  | nil => simp [dget, alookup]
  | cons kv rest ih =>
    obtain ⟨k, v⟩ := kv
    simp only [dget] at ih ⊢
    cases hb : alookup b k with
    | some w =>
      by_cases h : k = key
      · subst h; simp [alookup, hb]
      · simpa [alookup, hb, h] using ih
    | none =>
      by_cases h : k = key
      · subst h; simp [alookup, hb]
      · simpa [alookup, hb, h] using ih

theorem dget_filterNotIn (a b : Dict) (key : String) :
    dget (b.filter (fun kv => (dget a kv.1).isNone)) key
      = match dget a key with
        | some _ => none
        | none => dget b key := by
  induction b with
  | nil => cases dget a key <;> simp [dget, alookup]
  | cons kv rest ih =>
    obtain ⟨k, v⟩ := kv
    simp only [dget] at ih ⊢
    cases ha : alookup a k with
    | some w =>
      by_cases h : k = key
      · subst h; simpa [List.filter_cons, alookup, ha] using ih
      · simpa [List.filter_cons, alookup, ha, h] using ih
    | none =>
      by_cases h : k = key
      · subst h; simp [List.filter_cons, alookup, ha]
      · cases hak : alookup a key <;>
          simpa [List.filter_cons, alookup, ha, h, hak] using ih

theorem dget_dictMerge (a b : Dict) (key : String) :
    dget (dictMerge a b) key = oFirst (dget b key) (dget a key) := by
  show alookup _ key = _
  rw [show dictMerge a b = (a.map (fun kv => match dget b kv.1 with
        | some v => (kv.1, v) | none => kv))
      ++ b.filter (fun kv => (dget a kv.1).isNone) from rfl]
  rw [alookup_append]
  have h1 := dget_mapOverride a b key
  have h2 := dget_filterNotIn a b key
  rw [show dget (a.map (fun kv => match dget b kv.1 with
        | some v => (kv.1, v) | none => kv)) key = alookup (a.map (fun kv =>
          match dget b kv.1 with | some v => (kv.1, v) | none => kv)) key from rfl] at h1
  rw [show dget (b.filter (fun kv => (dget a kv.1).isNone)) key
      = alookup (b.filter (fun kv => (dget a kv.1).isNone)) key from rfl] at h2
  rw [h1, h2]
  cases dget a key <;> cases dget b key <;> simp [oFirst]

/-! ## Lemmas about the Merge Engine -/

theorem buildIndexFrom_inv (items : List Dict) (acc idx : Index)
    (h : buildIndexFrom acc items = .ok idx)
    (hacc : ∀ k d, alookup acc k = some d → dget d "video_id" = some k) :
    ∀ k d, alookup idx k = some d → dget d "video_id" = some k := by
  induction items generalizing acc with
  | nil =>
    simp only [buildIndexFrom] at h
    cases h
    exact hacc
  | cons item rest ih =>
    cases hv : dget item "video_id" with
    | none => simp [buildIndexFrom, hv] at h
    | some k0 =>
      simp only [buildIndexFrom, hv] at h
      refine ih _ h (fun k d hkd => ?_)
      rw [alookup_aset] at hkd
      by_cases hk : k0 = k
      · subst hk
        simp at hkd
        rw [← hkd]
        exact hv
      · exact hacc k d (by simpa [hk] using hkd)

theorem buildIndexFrom_absent (items : List Dict) (acc idx : Index) (k : PyVal)
    (h : buildIndexFrom acc items = .ok idx)
    (hacc : alookup acc k = none)
    (habs : ∀ d ∈ items, dget d "video_id" ≠ some k) :
    alookup idx k = none := by
  induction items generalizing acc with
  | nil =>
    simp only [buildIndexFrom] at h
    cases h
    exact hacc
  | cons item rest ih =>
    cases hv : dget item "video_id" with
    | none => simp [buildIndexFrom, hv] at h
    | some k0 =>
      simp only [buildIndexFrom, hv] at h
      have hk0 : k0 ≠ k := by
        intro hk
        exact habs item (List.mem_cons_self item rest) (hk ▸ hv)
      refine ih _ h ?_ (fun d hd => habs d (List.mem_cons_of_mem _ hd))
      rw [alookup_aset, if_neg hk0]
      exact hacc

theorem mergeEntries_length (g m : Index) (raw out : List Dict)
    (h : mergeEntries g m raw = .ok out) : out.length = raw.length := by
  induction raw generalizing out with
  | nil =>
    simp only [mergeEntries] at h
    cases h
    rfl
  | cons video rest ih =>
    cases hv : dget video "video_id" with
    | none => simp [mergeEntries, hv] at h
    | some vid =>
      simp only [mergeEntries, hv] at h
      cases ht : mergeEntries g m rest with
      | error e => rw [ht] at h; cases h
      | ok tail =>
        rw [ht] at h
        cases h
        simp [ih tail ht]

theorem mergeEntries_get (g m : Index) (raw out : List Dict)
    (h : mergeEntries g m raw = .ok out) (i : ℕ) (hi : i < raw.length)
    (ho : i < out.length) :
    ∃ vid, dget (raw.get ⟨i, hi⟩) "video_id" = some vid ∧
      out.get ⟨i, ho⟩ =
        dictMerge (dictMerge (raw.get ⟨i, hi⟩) ((alookup g vid).getD []))
          ((alookup m vid).getD []) := by
  induction raw generalizing out i with
  | nil => exact absurd hi (by simp)
  | cons video rest ih =>
    cases hv : dget video "video_id" with
    | none => simp [mergeEntries, hv] at h
    | some vid =>
      simp only [mergeEntries, hv] at h
      cases ht : mergeEntries g m rest with
      | error e => rw [ht] at h; cases h
      | ok tail =>
        rw [ht] at h
        cases h
        cases i with
        | zero => exact ⟨vid, hv, rfl⟩
        | succ j =>
          exact ih tail ht j (Nat.lt_of_succ_lt_succ hi) (Nat.lt_of_succ_lt_succ ho)

/-! ## Claim theorems -/

/-- C1: for every Collector output of N records and arbitrary Gemini and
multiplatform result lists, `merge_data` returns exactly N merged records,
one per Collector record in the Collector's iteration order (the i-th output
row carries the i-th input row's `video_id`); and a `video_id` absent from
the Gemini source contributes an empty overlay — its row is kept, built from
the Collector fields and the (possibly empty) multiplatform overlay alone. -/
theorem merge_engine_row_preservation
    (raw_data gemini_data multi_data out : List Dict) (gdict mdict : Index)
    (hg : buildIndex gemini_data = .ok gdict)
    (hm : buildIndex multi_data = .ok mdict)
    (hout : merge_data raw_data gemini_data multi_data = .ok out) :
    out.length = raw_data.length ∧
    (∀ i (hi : i < raw_data.length) (ho : i < out.length),
      dget (out.get ⟨i, ho⟩) "video_id" = dget (raw_data.get ⟨i, hi⟩) "video_id") ∧
    (∀ i (hi : i < raw_data.length) (ho : i < out.length) (vid : PyVal),
      dget (raw_data.get ⟨i, hi⟩) "video_id" = some vid →
      (∀ d ∈ gemini_data, dget d "video_id" ≠ some vid) →
      ∀ f, dget (out.get ⟨i, ho⟩) f =
        oFirst (dget ((alookup mdict vid).getD []) f)
          (dget (raw_data.get ⟨i, hi⟩) f)) ∧
    (∀ i (hi : i < raw_data.length) (ho : i < out.length) (vid : PyVal),
      dget (raw_data.get ⟨i, hi⟩) "video_id" = some vid →
      (∀ d ∈ multi_data, dget d "video_id" ≠ some vid) →
      ∀ f, dget (out.get ⟨i, ho⟩) f =
        oFirst (dget ((alookup gdict vid).getD []) f)
          (dget (raw_data.get ⟨i, hi⟩) f)) := by
  have hme : mergeEntries gdict mdict raw_data = .ok out := by
    simpa [merge_data, hg, hm] using hout
  refine ⟨mergeEntries_length _ _ _ _ hme, ?_, ?_, ?_⟩
  · intro i hi ho
    obtain ⟨vid, hvid, hrec⟩ := mergeEntries_get _ _ _ _ hme i hi ho
    have hginv : ∀ k d, alookup gdict k = some d → dget d "video_id" = some k :=
      buildIndexFrom_inv gemini_data [] gdict hg
        (fun k d hkd => by simp [alookup] at hkd)
    have hminv : ∀ k d, alookup mdict k = some d → dget d "video_id" = some k :=
      buildIndexFrom_inv multi_data [] mdict hm
        (fun k d hkd => by simp [alookup] at hkd)
    rw [hrec, dget_dictMerge, dget_dictMerge, hvid]
    cases hmv : alookup mdict vid with
    | some dm => simp [Option.getD, hminv vid dm hmv, oFirst]
    | none =>
      cases hgv : alookup gdict vid with
      | some dg =>
        have hd : alookup dg "video_id" = some vid := hginv vid dg hgv
        simp [Option.getD, oFirst, dget, alookup, hd]
      | none => simp [Option.getD, oFirst, dget, alookup]
  · intro i hi ho vid hvid habs f
    obtain ⟨vid2, hvid2, hrec⟩ := mergeEntries_get _ _ _ _ hme i hi ho
    rw [hvid] at hvid2
    cases hvid2
    have hgnone : alookup gdict vid = none :=
      buildIndexFrom_absent gemini_data [] gdict vid hg (by simp [alookup]) habs
    rw [hrec, dget_dictMerge, dget_dictMerge, hgnone]
    have h0 : ∀ y : Option PyVal, oFirst (dget ((none : Option Dict).getD []) f) y = y :=
      fun y => by simp [Option.getD, dget, alookup, oFirst]
    rw [h0]
  · intro i hi ho vid hvid habs f
    obtain ⟨vid2, hvid2, hrec⟩ := mergeEntries_get _ _ _ _ hme i hi ho
    rw [hvid] at hvid2
    cases hvid2
    have hmnone : alookup mdict vid = none :=
      buildIndexFrom_absent multi_data [] mdict vid hm (by simp [alookup]) habs
    rw [hrec, dget_dictMerge, dget_dictMerge, hmnone]
    have h0 : ∀ y : Option PyVal, oFirst (dget ((none : Option Dict).getD []) f) y = y :=
      fun y => by simp [Option.getD, dget, alookup, oFirst]
    exact h0 _

/-- C1 witness: at the sample inputs (two collector rows, Gemini covering only
`v1`, multiplatform covering only `v2`) two rows come out, the second still
carrying `v2` and, since `v2` has no Gemini entry, exactly the multiplatform
overlay over its Collector fields. -/
theorem merge_engine_row_preservation_instance :
    sampleMerged.length = sampleRaw.length ∧
    dget (sampleMerged.get ⟨1, by decide⟩) "video_id" = some (.vStr "v2") ∧
    dget (sampleMerged.get ⟨1, by decide⟩) "normalized_score" = some (.vFloat 1) ∧
    dget (sampleMerged.get ⟨1, by decide⟩) "views" = some (.vStr "0") := by
  have h := merge_engine_row_preservation sampleRaw sampleGemini sampleMulti
    sampleMerged sampleGD sampleMD rfl rfl rfl
  refine ⟨h.1, ?_, ?_, ?_⟩
  · have h2 := h.2.1 1 (by decide) (by decide)
    rw [h2]; rfl
  · have h3 := h.2.2.1 1 (by decide) (by decide) (.vStr "v2") (by rfl)
      (by decide) "normalized_score"
    rw [h3]; rfl
  · have h3 := h.2.2.1 1 (by decide) (by decide) (.vStr "v2") (by rfl)
      (by decide) "views"
    rw [h3]; rfl

/-- C4: every merged record is built by overlaying the three sources in the
fixed precedence order Collector < Gemini classification < multiplatform
popularity: the value of any field of the i-th output row is the
multiplatform overlay's value when that source defines the field, else the
classification overlay's, else the Collector's. -/
theorem merged_record_precedence
    (raw_data gemini_data multi_data out : List Dict) (gdict mdict : Index)
    (hg : buildIndex gemini_data = .ok gdict)
    (hm : buildIndex multi_data = .ok mdict)
    (hout : merge_data raw_data gemini_data multi_data = .ok out)
    (i : ℕ) (hi : i < raw_data.length) (ho : i < out.length)
    (vid : PyVal) (hvid : dget (raw_data.get ⟨i, hi⟩) "video_id" = some vid)
    (f : String) :
    dget (out.get ⟨i, ho⟩) f =
      oFirst (dget ((alookup mdict vid).getD []) f)
        (oFirst (dget ((alookup gdict vid).getD []) f)
          (dget (raw_data.get ⟨i, hi⟩) f)) := by
  have hme : mergeEntries gdict mdict raw_data = .ok out := by
    simpa [merge_data, hg, hm] using hout
  obtain ⟨vid2, hvid2, hrec⟩ := mergeEntries_get _ _ _ _ hme i hi ho
  rw [hvid] at hvid2
  cases hvid2
  rw [hrec, dget_dictMerge, dget_dictMerge]

/-- C4 witness: at the collision fixtures, `x` (defined by Collector and
Gemini) takes Gemini's value and `y` (defined by Gemini and multiplatform)
takes the multiplatform value. -/
theorem merged_record_precedence_instance :
    dget (ovOut.get ⟨0, by decide⟩) "x" = some (.vInt 2) ∧
    dget (ovOut.get ⟨0, by decide⟩) "y" = some (.vInt 3) := by
  constructor
  · have h := merged_record_precedence ovRaw ovG ovM ovOut ovGD ovMD rfl rfl rfl
      0 (by decide) (by decide) (.vStr "a") (by rfl) "x"
    rw [h]; rfl
  · have h := merged_record_precedence ovRaw ovG ovM ovOut ovGD ovMD rfl rfl rfl
      0 (by decide) (by decide) (.vStr "a") (by rfl) "y"
    rw [h]; rfl

/-- C2: for every pair of inputs that parse as integers,
`calculate_popularity_score` returns exactly 1.0 when both are zero, exactly
0.0 when exactly one is zero and the other positive, and
`min(views, streams) / max(views, streams)` when both are positive — a
symmetric ratio in (0,1] that equals 1 exactly when the two are equal. -/
theorem normalize_popularity_contract (yv sc : PyVal) (views streams : Int)
    (hv : pyInt yv = .ok views) (hs : pyInt sc = .ok streams) :
    (views = 0 ∧ streams = 0 → calculate_popularity_score yv sc = .ok 1) ∧
    ((views = 0 ∧ 0 < streams) ∨ (0 < views ∧ streams = 0) →
      calculate_popularity_score yv sc = .ok 0) ∧
    (0 < views → 0 < streams →
      calculate_popularity_score yv sc =
          .ok (((min views streams : Int) : ℚ) / ((max views streams : Int) : ℚ)) ∧
      (0 : ℚ) < ((min views streams : Int) : ℚ) / ((max views streams : Int) : ℚ) ∧
      ((min views streams : Int) : ℚ) / ((max views streams : Int) : ℚ) ≤ 1 ∧
      (((min views streams : Int) : ℚ) / ((max views streams : Int) : ℚ) = 1 ↔
        views = streams) ∧
      calculate_popularity_score yv sc = calculate_popularity_score sc yv) := by
  refine ⟨?_, ?_, ?_⟩
  · rintro ⟨h1, h2⟩
    simp [calculate_popularity_score, hv, hs, h1, h2]
  · rintro (⟨h1, h2⟩ | ⟨h1, h2⟩)
    · simp [calculate_popularity_score, hv, hs, h1, h2.ne']
    · simp [calculate_popularity_score, hv, hs, h1.ne', h2]
  · intro hvp hsp
    have hmin : (0 : Int) < min views streams := lt_min hvp hsp
    have hmax : (0 : Int) < max views streams := lt_of_lt_of_le hmin (min_le_max)
    have hminq : (0 : ℚ) < ((min views streams : Int) : ℚ) := by exact_mod_cast hmin
    have hmaxq : (0 : ℚ) < ((max views streams : Int) : ℚ) := by exact_mod_cast hmax
    refine ⟨?_, div_pos hminq hmaxq, ?_, ?_, ?_⟩
    · simp [calculate_popularity_score, hv, hs, hvp.ne', hsp.ne']
    · rw [div_le_one hmaxq]
      exact_mod_cast min_le_max
    · rw [div_eq_one_iff_eq hmaxq.ne']
      rw [Int.cast_inj]
      constructor
      · intro h
        rcases le_total views streams with hle | hle
        · rw [min_eq_left hle, max_eq_right hle] at h
          exact h
        · rw [min_eq_right hle, max_eq_left hle] at h
          exact h.symm
      · intro h
        rw [h]
        simp
    · simp [calculate_popularity_score, hv, hs, hvp.ne', hsp.ne',
        min_comm views streams, max_comm views streams]

/-- C2 witness: a positive pair through the main theorem (1000 views as a
string against 500 synthetic streams gives the ratio 1/2), plus the
both-zero and one-zero cases at concrete inputs. -/
theorem normalize_popularity_contract_instance :
    calculate_popularity_score (.vStr "1000") (.vInt 500) = .ok (1/2) ∧
    calculate_popularity_score (.vStr "0") (.vInt 0) = .ok 1 ∧
    calculate_popularity_score (.vInt 0) (.vInt 7) = .ok 0 := by
  refine ⟨?_, ?_, ?_⟩
  · have h := ((normalize_popularity_contract (.vStr "1000") (.vInt 500) 1000 500
      rfl rfl).2.2 (by decide) (by decide)).1
    rw [h]
    norm_num
  · exact (normalize_popularity_contract (.vStr "0") (.vInt 0) 0 0 rfl rfl).1
      ⟨rfl, rfl⟩
  · exact (normalize_popularity_contract (.vInt 0) (.vInt 7) 0 7 rfl rfl).2.1
      (Or.inl ⟨rfl, by decide⟩)

/-- C3: `get_best_streaming_count` scales the Spotify popularity by exactly
1,000,000, uses the Deezer rank as-is, and returns the maximum with label
"Combined" when both counts are positive, the single positive count with the
matching label when exactly one is positive, and `(0, "None")` otherwise. -/
theorem derive_synthetic_stream_count_contract (spotify_data deezer_data : Dict)
    (p r : Int)
    (hp : pyInt (dgetD spotify_data "popularity" (.vInt 0)) = .ok p)
    (hr : pyInt (dgetD deezer_data "rank" (.vInt 0)) = .ok r) :
    (0 < p * 1000000 → 0 < r →
      get_best_streaming_count spotify_data deezer_data =
        .ok (max (p * 1000000) r, "Combined")) ∧
    (0 < p * 1000000 → r ≤ 0 →
      get_best_streaming_count spotify_data deezer_data =
        .ok (p * 1000000, "Spotify")) ∧
    (p * 1000000 ≤ 0 → 0 < r →
      get_best_streaming_count spotify_data deezer_data = .ok (r, "Deezer")) ∧
    (p * 1000000 ≤ 0 → r ≤ 0 →
      get_best_streaming_count spotify_data deezer_data = .ok (0, "None")) := by
  refine ⟨?_, ?_, ?_, ?_⟩
  · intro h1 h2
    simp [get_best_streaming_count, hp, hr, h1, h2]
  · intro h1 h2
    simp [get_best_streaming_count, hp, hr, h1, not_lt.mpr h2]
  · intro h1 h2
    simp [get_best_streaming_count, hp, hr, not_lt.mpr h1, h2]
  · intro h1 h2
    simp [get_best_streaming_count, hp, hr, not_lt.mpr h1, not_lt.mpr h2]

/-- C3 witness: the three concrete examples — Spotify 80 with Deezer rank
50,000,000 gives `(80000000, "Combined")`, Spotify 0 with the same rank gives
`(50000000, "Deezer")`, both zero gives `(0, "None")`. -/
theorem derive_synthetic_stream_count_instance :
    get_best_streaming_count [("popularity", .vInt 80)] [("rank", .vInt 50000000)] =
      .ok (80000000, "Combined") ∧
    get_best_streaming_count [("popularity", .vInt 0)] [("rank", .vInt 50000000)] =
      .ok (50000000, "Deezer") ∧
    get_best_streaming_count [("popularity", .vInt 0)] [("rank", .vInt 0)] =
      .ok (0, "None") := by
  refine ⟨?_, ?_, ?_⟩
  · have h := (derive_synthetic_stream_count_contract
      [("popularity", .vInt 80)] [("rank", .vInt 50000000)] 80 50000000 rfl rfl).1
      (by decide) (by decide)
    rw [h]
    norm_num
  · exact (derive_synthetic_stream_count_contract
      [("popularity", .vInt 0)] [("rank", .vInt 50000000)] 0 50000000 rfl rfl).2.2.1
      (by decide) (by decide)
  · exact (derive_synthetic_stream_count_contract
      [("popularity", .vInt 0)] [("rank", .vInt 0)] 0 0 rfl rfl).2.2.2
      (by decide) (by decide)

/-- C5: `derive_flag` returns 1 exactly when the score is at least 0.5 and 0
otherwise; the boundary score 0.5 itself yields flag 1. -/
theorem derive_flag_threshold (score : ℚ) :
    (derive_flag score = 1 ↔ 1/2 ≤ score) ∧
    (derive_flag score = 0 ↔ score < 1/2) ∧
    derive_flag (1/2) = 1 := by
  by_cases h : 1/2 ≤ score
  · simp [derive_flag, h, not_lt.mpr h]
  · simp [derive_flag, h, not_le.mp h]

/-- C7 counterexample: the claim quantifies over every non-numeric input, but
the `try` in `calculate_popularity_score` catches only `ValueError`; the
non-numeric input `None` makes `int()` raise `TypeError`, which propagates to
the caller instead of yielding a 0.0 score. -/
theorem popularity_score_typeerror_cex :
    calculate_popularity_score .vNone (.vInt 5) = .error .typeError ∧
    calculate_popularity_score .vNone (.vInt 5) ≠ .ok 0 :=
  ⟨rfl, fun h => Except.noConfusion h⟩

/-- For int-or-string inputs, the only failure `int()` can produce is a
`ValueError` (an unparseable string). -/
theorem pyInt_intOrStr_failure (v : PyVal) (hv : intOrStr v = true) (e : PyErr)
    (he : pyInt v = .error e) : e = .valueError := by
  cases v with
  | vInt n => simp [pyInt] at he
  | vStr s =>
    cases hps : pyParseInt s with
    | some n => simp [pyInt, hps] at he
    | none =>
      simp only [pyInt, hps] at he
      cases he
      rfl
  | vFloat q => simp [intOrStr] at hv
  | vNone => simp [intOrStr] at hv

/-- C7 amended: for every pair of int-or-string inputs of which at least one
fails to parse as an integer, the popularity-score computation yields exactly
the 0.0 score and no exception (the `ValueError` is caught); only non-numeric
values of other types, such as `None`, escape as `TypeError`. -/
theorem popularity_score_string_failure_zero (yv sc : PyVal)
    (hy : intOrStr yv = true) (hc : intOrStr sc = true)
    (hfail : (∃ e, pyInt yv = .error e) ∨ (∃ e, pyInt sc = .error e)) :
    calculate_popularity_score yv sc = .ok 0 := by
  rcases hfail with ⟨e, he⟩ | ⟨e, he⟩
  · have hve := pyInt_intOrStr_failure yv hy e he
    subst hve
    simp [calculate_popularity_score, he]
  · cases hvy : pyInt yv with
    | error e2 =>
      have hve := pyInt_intOrStr_failure yv hy e2 hvy
      subst hve
      simp [calculate_popularity_score, hvy]
    | ok views =>
      have hve := pyInt_intOrStr_failure sc hc e he
      subst hve
      simp [calculate_popularity_score, hvy, he]

/-- C7 witness: the unparseable string "N/A" against 5 streams yields the
0.0 score without an exception. -/
theorem popularity_score_string_failure_instance :
    calculate_popularity_score (.vStr "N/A") (.vInt 5) = .ok 0 :=
  popularity_score_string_failure_zero (.vStr "N/A") (.vInt 5) rfl rfl
    (Or.inl ⟨.valueError, rfl⟩)

/-- C6 counterexample: the popularity record's `youtube_views` field is the
raw `views` value from the collector record — here the string "100", not the
parsed integer 100. -/
theorem popularity_record_raw_views_cex :
    dget ((process_single_video_popularity
        [("video_id", .vStr "v1"), ("views", .vStr "100")] [] []).toOption.getD [])
      "youtube_views" = some (PyVal.vStr "100") ∧
    PyVal.vStr "100" ≠ PyVal.vInt 100 :=
  ⟨rfl, fun h => PyVal.noConfusion h⟩

/-- The platform label returned by `get_best_streaming_count` is one of the
four documented values. -/
theorem get_best_label (sd dd : Dict) (n : Int) (lab : String)
    (h : get_best_streaming_count sd dd = .ok (n, lab)) :
    lab = "Spotify" ∨ lab = "Deezer" ∨ lab = "Combined" ∨ lab = "None" := by
  cases hp : pyInt (dgetD sd "popularity" (.vInt 0)) with
  | error e => simp [get_best_streaming_count, hp] at h
  | ok p =>
    cases hr : pyInt (dgetD dd "rank" (.vInt 0)) with
    | error e => simp [get_best_streaming_count, hp, hr] at h
    | ok r =>
      simp only [get_best_streaming_count, hp, hr] at h
      by_cases h1 : 0 < p * 1000000
      · by_cases h2 : 0 < r
        · simp [h1, h2] at h
          rcases h with ⟨-, hlab⟩
          subst hlab
          simp
        · simp [h1, h2] at h
          rcases h with ⟨-, hlab⟩
          subst hlab
          simp
      · by_cases h2 : 0 < r
        · simp [h1, h2] at h
          rcases h with ⟨-, hlab⟩
          subst hlab
          simp
        · simp [h1, h2] at h
          rcases h with ⟨-, hlab⟩
          subst hlab
          simp

/-- C6 amended: the popularity record carries `video_id`, `youtube_views` as
the raw `views` value of the collector record (the platform's string view
count, defaulting to "0" — not a parsed integer), the synthetic
`streaming_count_used` (int), `streaming_platform_used` among
Spotify/Deezer/Combined/None, `normalized_score` equal to the computed score
rounded to 4 decimals, and `popularity_flag` in {0, 1}. -/
theorem popularity_record_fields (video : Dict)
    (spotify_results : List SpotifyItem) (deezer_results : List DeezerItem)
    (out : Dict)
    (h : process_single_video_popularity video spotify_results deezer_results =
      .ok out) :
    dget out "video_id" = dget video "video_id" ∧
    dget out "youtube_views" = some (dgetD video "views" (.vStr "0")) ∧
    (∃ n : Int, ∃ lab : String, ∃ q : ℚ,
      dget out "streaming_count_used" = some (.vInt n) ∧
      dget out "streaming_platform_used" = some (.vStr lab) ∧
      (lab = "Spotify" ∨ lab = "Deezer" ∨ lab = "Combined" ∨ lab = "None") ∧
      calculate_popularity_score (dgetD video "views" (.vStr "0")) (.vInt n) =
        .ok q ∧
      dget out "normalized_score" = some (.vFloat (pyRound4 q)) ∧
      dget out "popularity_flag" = some (.vInt (derive_flag q)) ∧
      (derive_flag q = 0 ∨ derive_flag q = 1)) := by
  unfold process_single_video_popularity at h
  split at h
  · cases h
  · rename_i video_id hv
    dsimp only at h
    split at h
    · cases h
    · rename_i pr n lab hb
      split at h
      · cases h
      · rename_i q hc
        injection h with h2
        subst h2
        refine ⟨by rw [hv]; rfl, rfl, n, lab, q, rfl, rfl,
          get_best_label _ _ _ _ hb, hc, rfl, rfl, ?_⟩
        unfold derive_flag
        split
        · exact Or.inr rfl
        · exact Or.inl rfl

/-- C6 witness: for a collector record with view string "150" and a Spotify
popularity of 80, the produced record carries the raw string "150" as
`youtube_views` and the label "Spotify". -/
theorem popularity_record_fields_instance :
    dget pfOut "youtube_views" = some (.vStr "150") ∧
    dget pfOut "streaming_platform_used" = some (.vStr "Spotify") := by
  have h := popularity_record_fields pfVideo pfSpot [] pfOut rfl
  exact ⟨h.2.1, rfl⟩

/-- C8: the claim says a classifier response carrying the "Unknown"
placeholder is always coerced to a defined default before being returned.
The dict-shaped path and the error paths do this, but the list-shaped path
returns the array's first element without the coercion check, so the record
below escapes with `sega_genre = "Unknown"` — while the same payload in dict
shape is coerced to "Roots Sega" and a hard failure falls back to
"Not Sega". -/
theorem classifier_list_path_unknown :
    dget (analyze_single_video "v1"
        (GeminiResponse.listResp
          [[("video_id", PyVal.vStr "v1"), ("sega_genre", PyVal.vStr "Unknown")]]))
      "sega_genre" = some (PyVal.vStr "Unknown") ∧
    dget (analyze_single_video "v1"
        (GeminiResponse.dictResp
          [("video_id", PyVal.vStr "v1"), ("sega_genre", PyVal.vStr "Unknown")]))
      "sega_genre" = some (PyVal.vStr "Roots Sega") ∧
    dget (analyze_single_video "v1" GeminiResponse.fail) "sega_genre" =
      some (PyVal.vStr "Not Sega") :=
  ⟨rfl, rfl, rfl⟩

/-- `records_to_insert` distributes over concatenated batches. -/
theorem prepareRecords_append (xs ys : List Dict) :
    prepareRecords (xs ++ ys) = prepareRecords xs ++ prepareRecords ys := by
  induction xs with
  | nil => rfl
  | cons x rest ih =>
    cases hx : buildRecord x <;> simp [prepareRecords, hx, ih]

/-- Every item whose coercion succeeds contributes its record to the batch. -/
theorem prepareRecords_mem (l : List Dict) (item r : Dict)
    (hmem : item ∈ l) (hr : buildRecord item = .ok r) :
    r ∈ prepareRecords l := by
  induction l with
  | nil => cases hmem
  | cons x rest ih =>
    rcases List.mem_cons.mp hmem with rfl | hmem2
    · simp [prepareRecords, hr]
    · cases hx : buildRecord x with
      | ok record =>
        simp only [prepareRecords, hx]
        exact List.mem_cons_of_mem _ (ih hmem2)
      | error e =>
        simp only [prepareRecords, hx]
        exact ih hmem2

/-- C9: a record whose numeric coercion fails is skipped individually — the
prepared batch is exactly the records prepared from the other items, and
every item that coerces cleanly still contributes its record; one bad item
never aborts the batch. -/
theorem bad_record_skipped_batch_continues (pre post : List Dict) (bad : Dict)
    (e : PyErr) (hbad : buildRecord bad = .error e) :
    prepareRecords (pre ++ bad :: post) =
      prepareRecords pre ++ prepareRecords post ∧
    (∀ item ∈ pre ++ bad :: post, ∀ r, buildRecord item = .ok r →
      r ∈ prepareRecords (pre ++ bad :: post)) := by
  constructor
  · rw [prepareRecords_append]
    simp [prepareRecords, hbad]
  · intro item hitem r hr
    exact prepareRecords_mem _ item r hitem hr

/-- C9 witness: with a record whose view count "oops" fails `int()` between
two good records, the prepared batch is exactly the two good records. -/
theorem bad_record_skipped_instance :
    prepareRecords [dbGood1, dbBad, dbGood2] =
      prepareRecords [dbGood1] ++ prepareRecords [dbGood2] ∧
    (prepareRecords [dbGood1, dbBad, dbGood2]).length = 2 := by
  refine ⟨(bad_record_skipped_batch_continues [dbGood1] [dbGood2] dbBad
    .valueError rfl).1, ?_⟩
  rfl

/-- Every record emitted by the per-channel loop has a nonempty `comments`
string, and exactly the items with a nonempty joined comment string yield a
record. -/
theorem processChannelItems_spec (cn cid : String) (items : List ScrapedItem)
    (out : List Dict) (h : processChannelItems cn cid items = .ok out) :
    (∀ d ∈ out, ∃ c : String, c ≠ "" ∧ dget d "comments" = some (.vStr c)) ∧
    out.length =
      (items.filter (fun it => get_comments it.commentsResp != "")).length := by
  induction items generalizing out with
  | nil =>
    simp only [processChannelItems] at h
    cases h
    simp
  | cons it rest ih =>
    simp only [processChannelItems] at h
    split at h
    · rename_i hc
      split at h
      · cases h
      · rename_i yv hyv
        split at h
        · cases h
        · rename_i tail htail
          injection h with h2
          subst h2
          obtain ⟨ihmem, ihlen⟩ := ih tail htail
          constructor
          · intro d hd
            rcases List.mem_cons.mp hd with rfl | hd2
            · exact ⟨get_comments it.commentsResp, hc, rfl⟩
            · exact ihmem d hd2
          · simp [List.filter_cons, bne_iff_ne, hc, ihlen]
    · rename_i hc
      have hceq : get_comments it.commentsResp = "" := not_ne_iff.mp hc
      obtain ⟨ihmem, ihlen⟩ := ih out h
      refine ⟨ihmem, ?_⟩
      simp [List.filter_cons, hceq, ihlen]

/-- C10: every record emitted by the Collector has a nonempty `comments`
string; a video whose comment fetch yields no comments is excluded, so each
channel contributes exactly its videos with a nonempty joined comment string;
and a failed comment fetch yields the empty string (hence exclusion). -/
theorem collector_requires_comments (channels : List ChannelData)
    (out : List Dict) (h : run_scraper channels = .ok out) :
    (∀ d ∈ out, ∃ c : String, c ≠ "" ∧ dget d "comments" = some (.vStr c)) ∧
    out.length = (channels.map (fun ch =>
      (ch.items.filter (fun it => get_comments it.commentsResp != "")).length)).sum ∧
    get_comments none = "" := by
  induction channels generalizing out with
  | nil =>
    simp only [run_scraper] at h
    cases h
    exact ⟨by simp, by simp, rfl⟩
  | cons ch rest ih =>
    simp only [run_scraper] at h
    split at h
    · cases h
    · rename_i part hpart
      split at h
      · cases h
      · rename_i more hmore
        injection h with h2
        subst h2
        obtain ⟨m1, l1⟩ := processChannelItems_spec _ _ _ _ hpart
        obtain ⟨m2, l2, -⟩ := ih more hmore
        refine ⟨?_, ?_, rfl⟩
        · intro d hd
          rcases List.mem_append.mp hd with hd1 | hd2
          · exact m1 d hd1
          · exact m2 d hd2
        · simp [List.length_append, l1, l2]

/-- C10 witness: of three videos (comments fetched, fetch failed, no
comments), only the first survives, with its joined comment string. -/
theorem collector_requires_comments_instance :
    run_scraper [scChannel] = .ok scOut ∧
    scOut.length = 1 ∧
    dget (scOut.getD 0 []) "comments" = some (PyVal.vStr "great | love it") := by
  have h := collector_requires_comments [scChannel] scOut rfl
  refine ⟨rfl, ?_, rfl⟩
  rw [h.2.1]
  rfl

end Athena
